/-
Verification of the gCTS repository proxy and error-normalization layer
(`sap/rest/gcts.py`): a shallow embedding of the data model, the error
classifier `exception_from_http_error`, the configuration list/dict
adapters, the `Repository` proxy operations with their cache discipline,
and the `simple_clone` orchestration function, together with theorems
settling the specified properties.

Modelling conventions:
  * Python dicts parsed from JSON are insertion-ordered association lists
    without duplicate keys (`Data`); `dictSet` mirrors `d[k] = v`
    (update in place if present, else append) and `dictUpdate` mirrors
    `d.update(m)`.
  * Configuration lists are genuine lists of `key`/`value` objects
    (`List CfgEntry`); duplicates are representable, as they are in the
    JSON wire format.
  * The HTTP connection collaborator is external (spec section 6); it is
    modelled by an `Env` holding the repository resource's current data
    and abstract transition functions for the server-side effects of each
    operation, plus the response payloads it serves.  Each proxy operation
    is a pure state transformer on `RepoState × Env` that also emits the
    list of HTTP requests it issued, so cache/trace properties are
    statements about the emitted request list.
-/
import Mathlib

namespace Gcts

/-! ## String helpers (Python `in` and `str.endswith` on strings) -/

/-- `startsWithL s p` : the char list `s` starts with `p`. -/
def startsWithL : List Char → List Char → Bool
  | _, [] => true
  | [], _ :: _ => false
  | c :: cs, p :: ps => c = p && startsWithL cs ps

/-- `containsL s p` : the char list `p` occurs inside `s` (Python `p in s`). -/
def containsL : List Char → List Char → Bool
  | s, pat =>
    startsWithL s pat ||
      match s with
      | [] => false
      | _ :: cs => containsL cs pat

/-- Python `pat in s` for strings. -/
def strContains (s pat : String) : Bool :=
  containsL s.toList pat.toList

/-- Python `s.endswith(suffix)`. -/
def strEndsWith (s suffix : String) : Bool :=
  startsWithL s.toList.reverse suffix.toList.reverse

/-! ## Configuration entries and repository data -/

/-- One element of a server-side `config` list: a JSON object carrying a
`key` and (optionally) a `value`, as read by `cfg['key']` and
`cfg.get('value', '')` in the source. -/
structure CfgEntry where
  key : String
  value : Option String
  deriving DecidableEq, Repr

/-- A value stored in a repository-data dict: the fields used by the
source are strings, except `config`, which is a list of entries. -/
inductive DVal where
  | str (s : String)
  | cfgList (c : List CfgEntry)
  deriving DecidableEq, Repr

/-- A Python dict: insertion-ordered association list without duplicate
keys (JSON object keys collapse on parse). -/
abbrev PyDict (α : Type) := List (String × α)

/-- `d.get(k)` / `d.get(k, None)`. -/
def dictGet? {α : Type} (d : PyDict α) (k : String) : Option α :=
  (d.find? (fun p => p.1 = k)).map (fun p => p.2)

/-- `d[k] = v`: update in place when the key exists, else append. -/
def dictSet {α : Type} (d : PyDict α) (k : String) (v : α) : PyDict α :=
  if d.any (fun p => p.1 = k) then
    d.map (fun p => if p.1 = k then (k, v) else p)
  else
    d ++ [(k, v)]

/-- `d.update(m)`: apply every binding of `m` to `d`, left to right. -/
def dictUpdate {α : Type} (d m : PyDict α) : PyDict α :=
  m.foldl (fun acc p => dictSet acc p.1 p.2) d

/-- A repository-data dict. -/
abbrev Data := PyDict DVal

/-- A string-valued dict (the dict view of a config list, and
keyword-style config mappings). -/
abbrev StrDict := PyDict String

/-- The key list of a dict, in order. -/
def dictKeys {α : Type} (d : PyDict α) : List String :=
  d.map (fun p => p.1)

/-- The value assigned to key `k` by the last entry of `l` carrying it
(the `dict(...)` last-write-wins semantics, with `''` for a missing
value). -/
def lastValue (l : List CfgEntry) (k : String) : Option String :=
  (l.reverse.find? (fun e => e.key = k)).map (fun e => e.value.getD "")

/-- `_set_configuration_key(config, key, value)`: find the first entry
whose `key` matches and overwrite its `value`; otherwise append a new
entry at the end. -/
def set_configuration_key : List CfgEntry → String → String → List CfgEntry
  | [], key, value => [⟨key, some value⟩]
  | c :: cs, key, value =>
    if c.key = key then ⟨key, some value⟩ :: cs
    else c :: set_configuration_key cs key value

/-- `_config_list_to_dict(config)`: `dict((cfg['key'], cfg.get('value', ''))
for cfg in config)` — later entries overwrite earlier ones, first
occurrence fixes the position. -/
def config_list_to_dict (config : List CfgEntry) : StrDict :=
  config.foldl (fun d c => dictSet d c.key (c.value.getD "")) []

/-- `_config_dict_to_list(config)`: one `key`/`value` entry per dict
binding, in dict order. -/
def config_dict_to_list (config : StrDict) : List CfgEntry :=
  config.map (fun p => ⟨p.1, some p.2⟩)

/-! ## Transport errors and the error normalizer -/

/-- One element of the `log` list in an error body: a JSON object whose
`message` field is read by `log[0].get('message', '')`. -/
structure LogEntry where
  message : Option String
  deriving DecidableEq, Repr

/-- The parsed JSON error body (`messages`): the fields the classifier
inspects (`log`, `exception`) plus the remaining payload carried
verbatim. -/
structure Messages where
  log : Option (List LogEntry)
  exception : Option String
  rest : List (String × String)
  deriving DecidableEq, Repr

/-- The HTTP response attached to a transport error: its headers and its
body parsed as JSON (the classifier only parses the body after checking
the content type). -/
structure HttpErrResponse where
  headers : List (String × String)
  json : Messages
  deriving DecidableEq, Repr

/-- `HTTPRequestError`: the transport-level error raised by the
connection collaborator. -/
structure HTTPRequestError where
  response : HttpErrResponse
  deriving DecidableEq, Repr

/-- `headers.get('Content-Type', '')`. -/
def headersGet (hs : List (String × String)) (k : String) : String :=
  ((hs.find? (fun p => p.1 = k)).map (fun p => p.2)).getD ""

/-- The result of classifying a transport error: either the original
error unchanged, or one of the gCTS domain errors, each carrying its
`messages` payload. -/
inductive GctsError where
  | httpError (e : HTTPRequestError)
  | alreadyExists (messages : Messages)
  | notExists (messages : Messages)
  | requestError (messages : Messages)
  deriving DecidableEq, Repr

/-- `GCTSRepoNotExistsError.__init__`: overwrite `messages['exception']`
with the fixed string before storing. -/
def notExistsMessages (messages : Messages) : Messages :=
  { messages with exception := some "Repository does not exist" }

/-- The `log and log[0].get('message', '').endswith(...)` guard: `log`
is truthy (present and non-empty) and its first entry's message ends
with the literal suffix. -/
def logAlreadyExists (messages : Messages) : Bool :=
  match messages.log with
  | some entries =>
    entries ≠ [] &&
      strEndsWith ((entries.headD ⟨none⟩).message.getD "")
        "Error action CREATE_REPOSITORY Repository already exists"
  | none => false

/-- `exception_from_http_error(http_error)`: the error normalizer of
`sap/rest/gcts.py`. -/
def exception_from_http_error (http_error : HTTPRequestError) : GctsError :=
  if ¬ strContains (headersGet http_error.response.headers "Content-Type") "application/json" then
    .httpError http_error
  else
    let messages := http_error.response.json
    if logAlreadyExists messages then
      .alreadyExists messages
    else if messages.exception = some "No relation between system and repository" then
      .notExists (notExistsMessages messages)
    else
      .requestError messages

/-! ## HTTP requests, bodies, and the environment model -/

/-- A JSON body posted by the proxy. -/
inductive Body where
  | cfgPair (key value : String)
  | repoData (d : Data)
  | createReq (repository : String) (data : Data)
  | commitReq (message autoPush : String) (objects : List (String × String))
      (description : Option String)
  deriving DecidableEq, Repr

/-- One HTTP request issued through the connection collaborator. -/
inductive Request where
  | get (url : String) (params : List (String × String))
  | getJson (url : String)
  | post (url : String)
  | postJson (url : String) (body : Body)
  | delete (url : String)
  deriving DecidableEq, Repr

/-- `_RepositoryHttpProxy._build_url`: `repository/{name}` with an
optional trailing path. -/
def build_url (name : String) (path : Option String) : String :=
  match path with
  | none => s!"repository/{name}"
  | some p => s!"repository/{name}/{p}"

/-- The external connection/server collaborator (spec section 6).
`data` is the repository resource's current state (the `result` field of
the resource JSON); the `on*` fields abstract the server-side effect of
each mutating call; the remaining fields are the response payloads the
server serves.  A GET of the base resource returns `data`; a POST of a
repository object to the base resource stores it (the resource wire
shape of spec section 6).  Only `create` is modelled with a failure case
(`createError`), the one the orchestration layer inspects. -/
structure Env where
  data : Data
  cloneResp : String
  checkoutResult : Data
  pullBody : Data
  deleteResp : String
  commitResp : String
  postResp : String
  configValue : String → String
  createError : Option HTTPRequestError
  createdRepo : Data
  onClone : Data → Data
  onCheckout : String → Data → Data
  onPull : Data → Data
  onDelete : Data → Data
  onCommit : Data → Data
  onSetConfig : String → String → Data → Data
  onCreate : Data → Data

/-- The mutable state of one `Repository` proxy instance: its name, the
optional cached snapshot `_data`, and the optional cached config list
`_config`. -/
structure RepoState where
  name : String
  data : Option Data
  config : Option (List CfgEntry)
  deriving Repr

/-- The outcome of one proxy operation: its return value, the proxy
state and environment after it, and the HTTP requests it issued. -/
structure OpResult (α : Type) where
  result : α
  st : RepoState
  env : Env
  reqs : List Request

namespace Repository

/-- `Repository.__init__(connection, name, data=None)`: the config cache
is seeded from `data['config']` only when `data` is truthy (present and
non-empty). -/
def init (name : String) (data : Option Data) : RepoState :=
  { name := name
    data := data
    config :=
      match data with
      | some d =>
        if d = [] then none
        else
          match dictGet? d "config" with
          | some (.cfgList c) => some c
          | _ => none
      | none => none }

/-- `Repository.wipe_data`: clear both caches. -/
def wipe_data (st : RepoState) : RepoState :=
  { st with data := none, config := none }

/-- `Repository._get_item(item)`: fetch the resource (GET of the base
URL, keeping the `result` field as the new snapshot) when no snapshot is
cached, then read the named field. -/
def get_item (st : RepoState) (env : Env) (item : String) : OpResult (Option DVal) :=
  match st.data with
  | some d => ⟨dictGet? d item, st, env, []⟩
  | none =>
    ⟨dictGet? env.data item, { st with data := some env.data }, env,
      [.getJson (build_url st.name none)]⟩

/-- `Repository.rid`. -/
def rid (st : RepoState) (env : Env) : OpResult (Option DVal) :=
  get_item st env "rid"

/-- `Repository.status`. -/
def status (st : RepoState) (env : Env) : OpResult (Option DVal) :=
  get_item st env "status"

/-- `Repository.vsid`. -/
def vsid (st : RepoState) (env : Env) : OpResult (Option DVal) :=
  get_item st env "vsid"

/-- `Repository.url`. -/
def url (st : RepoState) (env : Env) : OpResult (Option DVal) :=
  get_item st env "url"

/-- `Repository.branch`. -/
def branch (st : RepoState) (env : Env) : OpResult (Option DVal) :=
  get_item st env "branch"

/-- `Repository.head` (the `currentCommit` field). -/
def head (st : RepoState) (env : Env) : OpResult (Option DVal) :=
  get_item st env "currentCommit"

/-- `Repository.is_cloned`: `self.status != 'CREATED'`. -/
def is_cloned (st : RepoState) (env : Env) : OpResult Bool :=
  let r := status st env
  ⟨decide (r.result ≠ some (.str "CREATED")), r.st, r.env, r.reqs⟩

/-- `Repository.configuration`: derive the dict view from the cached or
fetched config list.  When the snapshot holds no config list the source
would raise a `TypeError` iterating `None`; that path is modelled as
`none`. -/
def configuration (st : RepoState) (env : Env) : OpResult (Option StrDict) :=
  match st.config with
  | some c => ⟨some (config_list_to_dict c), st, env, []⟩
  | none =>
    let r := get_item st env "config"
    match r.result with
    | some (.cfgList c) =>
      ⟨some (config_list_to_dict c), { r.st with config := some c }, env, r.reqs⟩
    | _ => ⟨none, r.st, env, r.reqs⟩

/-- `Repository._update_configuration(key, value)` applied to a state:
start from `[]` when the config cache is empty. -/
def update_configuration (st : RepoState) (key value : String) : RepoState :=
  { st with config := some (set_configuration_key (st.config.getD []) key value) }

/-- `Repository.set_config(key, value)`: POST the pair to `config`, then
update the local config cache with the same key/value. -/
def set_config (st : RepoState) (env : Env) (key value : String) : OpResult Unit :=
  ⟨(), update_configuration st key value,
    { env with data := env.onSetConfig key value env.data },
    [.postJson (build_url st.name (some "config")) (.cfgPair key value)]⟩

/-- `Repository.get_config(key)`: consult the configuration view; on a
hit return the cached value with no further request; on a miss GET
`config/{key}`, cache the fetched value, and return it. -/
def get_config (st : RepoState) (env : Env) (key : String) : OpResult (Option String) :=
  let r := configuration st env
  let hit : Option String :=
    match r.result with
    | some cfg => dictGet? cfg key
    | none => none
  match hit with
  | some v => ⟨some v, r.st, r.env, r.reqs⟩
  | none =>
    let value := env.configValue key
    ⟨some value, update_configuration r.st key value, r.env,
      r.reqs ++ [.getJson (build_url st.name (some s!"config/{key}"))]⟩

/-- `Repository.clone()`: POST to the `clone` sub-resource, wipe the
caches, return the raw response. -/
def clone (st : RepoState) (env : Env) : OpResult String :=
  ⟨env.cloneResp, wipe_data st, { env with data := env.onClone env.data },
    [.post (build_url st.name (some "clone"))]⟩

/-- Python `str()` of an optional data value, as interpolated into the
checkout f-string (`branch` is a string on the wire; the other arms are
placeholders for the degenerate reprs). -/
def pyStr : Option DVal → String
  | some (.str s) => s
  | some (.cfgList _) => "[...]"
  | none => "None"

/-- `Repository.checkout(branch)`: GET
`branches/{currentBranch}/switch` — the URL path uses the pre-switch
current branch, read through `self.branch` (which may itself fetch) —
with the target as the `branch` query parameter; wipe the caches; return
the `result` field of the response. -/
def checkout (st : RepoState) (env : Env) (branch : String) : OpResult Data :=
  let r := get_item st env "branch"
  ⟨env.checkoutResult, wipe_data r.st,
    { env with data := env.onCheckout branch env.data },
    r.reqs ++
      [.get (build_url st.name (some s!"branches/{pyStr r.result}/switch"))
        [("branch", branch)]]⟩

/-- `Repository.pull()`: GET `pullByCommit`, wipe the caches, return the
full JSON body. -/
def pull (st : RepoState) (env : Env) : OpResult Data :=
  ⟨env.pullBody, wipe_data st, { env with data := env.onPull env.data },
    [.getJson (build_url st.name (some "pullByCommit"))]⟩

/-- `Repository.delete()`: DELETE the base resource, wipe the caches. -/
def delete (st : RepoState) (env : Env) : OpResult String :=
  ⟨env.deleteResp, wipe_data st, { env with data := env.onDelete env.data },
    [.delete (build_url st.name none)]⟩

/-- `Repository.commit_transport(corrnr, message, description=None)`:
POST the commit payload (with `description` only when truthy), wipe the
caches. -/
def commit_transport (st : RepoState) (env : Env) (corrnr message : String)
    (description : Option String) : OpResult String :=
  let desc : Option String :=
    match description with
    | some s => if s = "" then none else some s
    | none => none
  ⟨env.commitResp, wipe_data st, { env with data := env.onCommit env.data },
    [.postJson (build_url st.name (some "commit"))
      (.commitReq message "true" [(corrnr, "TRANSPORT")] desc)]⟩

/-- `Repository.set_url(url)`: fetch the current data directly (without
storing it into the cache); if its `url` field already equals the new
URL return `None`; otherwise POST the whole object, with the `url` field
replaced, back to the base resource (the collaborator stores it).
Returns `none` for the `KeyError` path (`data['url']` missing). -/
def set_url (st : RepoState) (env : Env) (url : String) :
    Option (OpResult (Option String)) :=
  let fetchReq := Request.getJson (build_url st.name none)
  match dictGet? env.data "url" with
  | none => none
  | some cur =>
    if cur = .str url then some ⟨none, st, env, [fetchReq]⟩
    else
      let d2 := dictSet env.data "url" (.str url)
      some ⟨some env.postResp, st, { env with data := d2 },
        [fetchReq, .postJson (build_url st.name none) (.repoData d2)]⟩

/-- The repository object `Repository.create`'s POST carries: the cached
snapshot (`self._data or {}`) updated with the identity fields, then —
when a config mapping is supplied (truthy) — with the merged config list
(`repo['config']` flattened back from the dict view updated by the
supplied mapping). -/
def create_payload (st : RepoState) (url vsid : String) (config : StrDict)
    (role typ : String) : Data :=
  let repo0 : Data := (st.data.getD [])
  let repo1 := dictUpdate repo0
    [("rid", .str st.name), ("name", .str st.name), ("vsid", .str vsid),
     ("url", .str url), ("role", .str role), ("type", .str typ),
     ("connection", .str "ssl")]
  if config ≠ [] then
    let repo_config := config_list_to_dict
      (match dictGet? repo1 "config" with | some (.cfgList c) => c | _ => [])
    let request_config := config_dict_to_list (dictUpdate repo_config config)
    dictSet repo1 "config" (.cfgList request_config)
  else repo1

/-- `Repository.create(url, vsid, config=None, role='SOURCE',
typ='GITHUB')`: build the creation payload on top of `self._data or {}`
(in place when the cached snapshot is truthy, so the cache already holds
the payload when the POST is issued), POST it to the top-level
`repository` collection, and on success merge the response's
`repository` object into the snapshot (installing it when the snapshot
was falsy).  The result is the raised error, or `none` on success. -/
def create (st : RepoState) (env : Env) (url vsid : String) (config : StrDict)
    (role typ : String) : OpResult (Option GctsError) :=
  let origTruthy : Bool := match st.data with | some d => decide (d ≠ []) | none => false
  let repo2 := create_payload st url vsid config role typ
  let stPre := if origTruthy then { st with data := some repo2 } else st
  let req := Request.postJson "repository" (.createReq st.name repo2)
  match env.createError with
  | some e => ⟨some (exception_from_http_error e), stPre, env, [req]⟩
  | none =>
    let result := env.createdRepo
    let postTruthy : Bool :=
      match stPre.data with | some d => decide (d ≠ []) | none => false
    let st2 :=
      if postTruthy then { stPre with data := some (dictUpdate (stPre.data.getD []) result) }
      else { stPre with data := some result }
    ⟨none, st2, { env with data := env.onCreate env.data }, [req]⟩

end Repository

/-- The tail of `simple_clone` after the create/except block: clone only
when the repository is not already cloned. -/
def simple_clone_finish (st : RepoState) (env : Env) (trace : List Request) :
    Except GctsError (RepoState × Env) × List Request :=
  let ic := Repository.is_cloned st env
  if ic.result then (.ok (ic.st, ic.env), trace ++ ic.reqs)
  else
    let cl := Repository.clone ic.st ic.env
    (.ok (cl.st, cl.env), trace ++ ic.reqs ++ cl.reqs)

/-- The config mapping `simple_clone` derives: `VCS_TARGET_DIR` from a
truthy `start_dir`, `CLIENT_VCS_AUTH_TOKEN` from a truthy `vcs_token`. -/
def simple_clone_config (start_dir : String) (vcs_token : Option String) : StrDict :=
  let config0 : StrDict := []
  let config1 := if start_dir ≠ "" then dictSet config0 "VCS_TARGET_DIR" start_dir else config0
  match vcs_token with
  | some t => if t ≠ "" then dictSet config1 "CLIENT_VCS_AUTH_TOKEN" t else config1
  | none => config1

/-- `simple_clone(connection, url, name, vsid='6IT', start_dir='src/',
vcs_token=None, error_exists=True, role='SOURCE', typ='GITHUB')`: derive
the config mapping from `start_dir`/`vcs_token` (when truthy), create
the repository, tolerate `GCTSRepoAlreadyExistsError` when
`error_exists` is false by wiping the caches instead of raising, then
clone only when not already cloned. -/
def simple_clone (env : Env) (url name vsid start_dir : String)
    (vcs_token : Option String) (error_exists : Bool) (role typ : String) :
    Except GctsError (RepoState × Env) × List Request :=
  let config := simple_clone_config start_dir vcs_token
  let repo := Repository.init name none
  let c := Repository.create repo env url vsid config role typ
  match c.result with
  | some (.alreadyExists m) =>
    if error_exists then (.error (.alreadyExists m), c.reqs)
    else simple_clone_finish (Repository.wipe_data c.st) c.env c.reqs
  | some err => (.error err, c.reqs)
  | none => simple_clone_finish c.st c.env c.reqs

/-! ## Concrete instances for witnesses and counterexamples -/

/-- The number of POST requests in a trace. -/
def countPosts (reqs : List Request) : Nat :=
  reqs.countP (fun r =>
    match r with
    | .post _ => true
    | .postJson _ _ => true
    | _ => false)

/-- A concrete environment: a repository on branch `develop`, status
`CREATED`, url `https://old`, with a duplicate-key config list. -/
def envEx : Env :=
  { data := [("rid", .str "corp"), ("status", .str "CREATED"),
      ("branch", .str "develop"), ("url", .str "https://old"),
      ("config", .cfgList [⟨"K", some "a"⟩, ⟨"K", some "b"⟩])]
    cloneResp := "cloneResp"
    checkoutResult := [("fromCommit", .str "c1")]
    pullBody := [("fromCommit", .str "c1")]
    deleteResp := "deleteResp"
    commitResp := "commitResp"
    postResp := "postResp"
    configValue := fun _ => "remote"
    createError := none
    createdRepo := [("rid", .str "corp"), ("status", .str "CREATED")]
    onClone := id
    onCheckout := fun _ d => d
    onPull := id
    onDelete := id
    onCommit := id
    onSetConfig := fun _ _ d => d
    onCreate := id }

/-- A transport error the classifier maps to AlreadyExists. -/
def alreadyExistsErr : HTTPRequestError :=
  ⟨⟨[("Content-Type", "application/json")],
    ⟨some [⟨some "Error action CREATE_REPOSITORY Repository already exists"⟩],
      none, []⟩⟩⟩

/-- The messages payload of `alreadyExistsErr`. -/
def mW : Messages :=
  ⟨some [⟨some "Error action CREATE_REPOSITORY Repository already exists"⟩], none, []⟩

/-- `envEx` with a failing create POST (server reports a duplicate). -/
def envExErr : Env :=
  { envEx with createError := some alreadyExistsErr }

/-- A proxy whose config cache holds two entries for the same key. -/
def stDup : RepoState :=
  ⟨"corp", none, some [⟨"K", some "a"⟩, ⟨"K", some "b"⟩]⟩

/-- A proxy holding a cached snapshot whose `url` is `https://old`. -/
def stStale : RepoState :=
  ⟨"corp", some [("url", DVal.str "https://old")], none⟩

/-- The result of the first `set_url` call of the C7 witness (the
already-equal short-circuit). -/
def rW : OpResult (Option String) :=
  ⟨none, Repository.init "corp" none, envEx, [.getJson "repository/corp"]⟩

/-! ## Dictionary lemmas -/

theorem dictGet?_dictSet {α : Type} (d : PyDict α) (k : String) (v : α) (k' : String) :
    dictGet? (dictSet d k v) k' = if k' = k then some v else dictGet? d k' := by
  unfold dictSet dictGet?
  by_cases h : d.any (fun p => p.1 = k) = true
  · simp only [h, if_true, List.find?_map]
    have hpred : ((fun p : String × α => decide (p.1 = k')) ∘
        fun p => if p.1 = k then (k, v) else p) =
        fun p : String × α => decide (p.1 = k') := by
      funext p
      by_cases hp : p.1 = k <;> simp [hp]
    rw [hpred]
    by_cases hk : k' = k
    · subst hk
      rw [if_pos rfl]
      obtain ⟨p, hmem, hp⟩ := List.any_eq_true.mp h
      cases hfind : d.find? (fun p : String × α => decide (p.1 = k')) with
      | none =>
        rw [List.find?_eq_none] at hfind
        exact absurd hp (hfind p hmem)
      | some p0 =>
        have hp0k : p0.1 = k' := by simpa using List.find?_some hfind
        simp [hp0k]
    · rw [if_neg hk]
      cases hfind : d.find? (fun p : String × α => decide (p.1 = k')) with
      | none => simp
      | some p1 =>
        have hp1 : p1.1 = k' := by simpa using List.find?_some hfind
        have hne : ¬ p1.1 = k := by
          rw [hp1]
          exact hk
        simp [hne]
  · rw [if_neg h, List.find?_append]
    have hnone : d.find? (fun p : String × α => decide (p.1 = k)) = none := by
      rw [List.find?_eq_none]
      intro x hx hxdec
      exact h (List.any_eq_true.mpr ⟨x, hx, hxdec⟩)
    by_cases hk : k' = k
    · subst hk
      have hsing : List.find? (fun p : String × α => decide (p.1 = k')) [(k', v)] =
          some (k', v) := List.find?_cons_of_pos _ (by simp)
      simp [hnone, hsing]
    · rw [if_neg hk]
      cases hfind : d.find? (fun p : String × α => decide (p.1 = k')) with
      | none =>
        have hsing : List.find? (fun p : String × α => decide (p.1 = k')) [(k, v)] =
            none := by
          rw [List.find?_eq_none]
          intro x hx hxdec
          rw [List.mem_singleton] at hx
          subst hx
          rw [decide_eq_true_eq] at hxdec
          exact hk hxdec.symm
        simp [hfind, hsing]
      | some p1 => simp [hfind]

theorem dictGet?_append {α : Type} (xs ys : PyDict α) (k : String) :
    dictGet? (xs ++ ys) k = (dictGet? xs k).or (dictGet? ys k) := by
  unfold dictGet?
  rw [List.find?_append]
  cases xs.find? (fun p => p.1 = k) <;> simp

theorem dictGet?_singleton {α : Type} (p : String × α) (k : String) :
    dictGet? [p] k = if p.1 = k then some p.2 else none := by
  unfold dictGet?
  by_cases h : p.1 = k <;> simp [List.find?, h]

theorem dictGet?_dictUpdate {α : Type} (d m : PyDict α) (k : String) :
    dictGet? (dictUpdate d m) k = (dictGet? m.reverse k).or (dictGet? d k) := by
  induction m generalizing d with
  | nil => simp [dictUpdate, dictGet?]
  | cons p ps ih =>
    have h1 : dictUpdate d (p :: ps) = dictUpdate (dictSet d p.1 p.2) ps := rfl
    rw [h1, ih, dictGet?_dictSet]
    have h2 : (p :: ps).reverse = ps.reverse ++ [p] := by simp
    rw [h2, dictGet?_append, dictGet?_singleton]
    cases dictGet? ps.reverse k with
    | some v => simp
    | none =>
      by_cases hk : k = p.1
      · simp [hk]
      · rw [if_neg hk, if_neg (fun hpk : p.1 = k => hk hpk.symm)]
        simp

theorem mem_dictKeys_iff {α : Type} (d : PyDict α) (k : String) :
    k ∈ dictKeys d ↔ (dictGet? d k).isSome = true := by
  constructor
  · intro hmem
    simp only [dictKeys] at hmem
    obtain ⟨p, hp, hpk⟩ := List.mem_map.mp hmem
    have hfind : (d.find? (fun q : String × α => decide (q.1 = k))).isSome = true :=
      List.find?_isSome.mpr ⟨p, hp, by simp [hpk]⟩
    simpa [dictGet?] using hfind
  · intro hsome
    have hfind : (d.find? (fun q : String × α => decide (q.1 = k))).isSome = true := by
      simpa [dictGet?] using hsome
    obtain ⟨p, hp, hpk⟩ := List.find?_isSome.mp hfind
    simp only [dictKeys]
    exact List.mem_map.mpr ⟨p, hp, by simpa using hpk⟩

theorem dictKeys_dictSet {α : Type} (d : PyDict α) (k : String) (v : α) :
    dictKeys (dictSet d k v) =
      if d.any (fun p => p.1 = k) then dictKeys d else dictKeys d ++ [k] := by
  unfold dictSet dictKeys
  by_cases h : d.any (fun p => p.1 = k) = true
  · simp only [h, if_true, List.map_map]
    have : ((fun p : String × α => p.1) ∘ fun p => if p.1 = k then (k, v) else p) =
        fun p : String × α => p.1 := by
      funext p
      by_cases hp : p.1 = k <;> simp [hp]
    rw [this]
  · simp [h]

theorem nodup_dictKeys_dictSet {α : Type} (d : PyDict α) (k : String) (v : α)
    (h : (dictKeys d).Nodup) : (dictKeys (dictSet d k v)).Nodup := by
  rw [dictKeys_dictSet]
  by_cases hany : d.any (fun p => p.1 = k) = true
  · simp [hany, h]
  · have hnotin : k ∉ dictKeys d := by
      intro hmem
      simp only [dictKeys] at hmem
      obtain ⟨p, hp, hpk⟩ := List.mem_map.mp hmem
      exact hany (List.any_eq_true.mpr ⟨p, hp, by simp [hpk]⟩)
    rw [if_neg hany]
    simp [List.nodup_append, h, hnotin]

theorem nodup_dictKeys_dictUpdate {α : Type} (d m : PyDict α)
    (h : (dictKeys d).Nodup) : (dictKeys (dictUpdate d m)).Nodup := by
  induction m generalizing d with
  | nil => exact h
  | cons p ps ih => exact ih _ (nodup_dictKeys_dictSet d p.1 p.2 h)

/-! ## Configuration adapter lemmas -/

theorem config_list_to_dict_eq (l : List CfgEntry) :
    config_list_to_dict l =
      dictUpdate [] (l.map (fun e => (e.key, e.value.getD ""))) := by
  unfold config_list_to_dict dictUpdate
  rw [List.foldl_map]

theorem config_list_to_dict_get (l : List CfgEntry) (k : String) :
    dictGet? (config_list_to_dict l) k = lastValue l k := by
  rw [config_list_to_dict_eq, dictGet?_dictUpdate]
  unfold lastValue
  have hempty : dictGet? ([] : StrDict) k = none := rfl
  rw [hempty, Option.or_none]
  unfold dictGet?
  rw [← List.map_reverse, List.find?_map]
  have hpred : (fun p : String × String => decide (p.1 = k)) ∘
      (fun e : CfgEntry => (e.key, e.value.getD "")) =
      fun e : CfgEntry => decide (e.key = k) := by
    funext e
    simp
  rw [hpred, Option.map_map]
  rfl

/-! ## Claim theorems -/

/-- C1: `exception_from_http_error` classifies a transport error exactly
as specified, checks in order: a content type not containing
`application/json` returns the original transport error unchanged; else
a truthy `log` whose first entry's `message` ends with the literal
suffix `Error action CREATE_REPOSITORY Repository already exists` gives
the AlreadyExists error carrying the messages; else an `exception` equal
to `No relation between system and repository` gives the NotExists error
with `exception` overwritten by the fixed string `Repository does not
exist` (all other fields preserved); else the generic request error
wraps the messages verbatim. -/
theorem C1_error_classification :
    (∀ e : HTTPRequestError,
      strContains (headersGet e.response.headers "Content-Type") "application/json" = false →
      exception_from_http_error e = .httpError e) ∧
    (∀ (e : HTTPRequestError) (entry : LogEntry) (tl : List LogEntry),
      strContains (headersGet e.response.headers "Content-Type") "application/json" = true →
      e.response.json.log = some (entry :: tl) →
      strEndsWith (entry.message.getD "")
        "Error action CREATE_REPOSITORY Repository already exists" = true →
      exception_from_http_error e = .alreadyExists e.response.json) ∧
    (∀ e : HTTPRequestError,
      strContains (headersGet e.response.headers "Content-Type") "application/json" = true →
      logAlreadyExists e.response.json = false →
      e.response.json.exception = some "No relation between system and repository" →
      exception_from_http_error e =
        .notExists
          ⟨e.response.json.log, some "Repository does not exist", e.response.json.rest⟩) ∧
    (∀ e : HTTPRequestError,
      strContains (headersGet e.response.headers "Content-Type") "application/json" = true →
      logAlreadyExists e.response.json = false →
      ¬ e.response.json.exception = some "No relation between system and repository" →
      exception_from_http_error e = .requestError e.response.json) := by
  refine ⟨?_, ?_, ?_, ?_⟩
  · intro e h
    simp [exception_from_http_error, h]
  · intro e entry tl hct hlog hsuf
    simp [exception_from_http_error, hct, logAlreadyExists, hlog, hsuf]
  · intro e hct hlog hexc
    simp [exception_from_http_error, hct, hlog, hexc, notExistsMessages]
  · intro e hct hlog hexc
    simp [exception_from_http_error, hct, hlog, hexc]

/-- Witness for C1: one concrete transport error per classification arm. -/
theorem C1_error_classification_witness :
    (strContains (headersGet [("Content-Type", "text/html")] "Content-Type")
        "application/json" = false ∧
      exception_from_http_error ⟨⟨[("Content-Type", "text/html")], ⟨none, none, []⟩⟩⟩ =
        .httpError ⟨⟨[("Content-Type", "text/html")], ⟨none, none, []⟩⟩⟩) ∧
    (exception_from_http_error
        ⟨⟨[("Content-Type", "application/json")],
          ⟨some [⟨some "Error action CREATE_REPOSITORY Repository already exists"⟩],
            none, []⟩⟩⟩ =
      .alreadyExists
        ⟨some [⟨some "Error action CREATE_REPOSITORY Repository already exists"⟩],
          none, []⟩) ∧
    (exception_from_http_error
        ⟨⟨[("Content-Type", "application/json")],
          ⟨none, some "No relation between system and repository", []⟩⟩⟩ =
      .notExists ⟨none, some "Repository does not exist", []⟩) ∧
    (exception_from_http_error
        ⟨⟨[("Content-Type", "application/json")], ⟨none, some "other", []⟩⟩⟩ =
      .requestError ⟨none, some "other", []⟩) :=
  ⟨⟨by decide, C1_error_classification.1 _ (by decide)⟩,
    C1_error_classification.2.1 _
      ⟨some "Error action CREATE_REPOSITORY Repository already exists"⟩ []
      (by decide) rfl (by decide),
    C1_error_classification.2.2.1 _ (by decide) (by decide) rfl,
    C1_error_classification.2.2.2 _ (by decide) (by decide) (by decide)⟩

/-- C9: the config round trip
`_config_dict_to_list(_config_list_to_dict(l))` collapses duplicates
with last-write-wins: the result has duplicate-free keys, exactly the
keys of `l`, and its (unique) entry for each key carries the value of
that key's last occurrence in `l`. -/
theorem C9_config_roundtrip (l : List CfgEntry)
    (hv : l.all (fun e => e.value.isSome) = true) :
    ((config_dict_to_list (config_list_to_dict l)).map (fun e => e.key)).Nodup ∧
    (∀ k : String,
      k ∈ (config_dict_to_list (config_list_to_dict l)).map (fun e => e.key) ↔
        k ∈ l.map (fun e => e.key)) ∧
    (∀ k : String,
      ((config_dict_to_list (config_list_to_dict l)).find? (fun e => e.key = k)).map
          (fun e => e.value) =
        (lastValue l k).map some) := by
  have hkeys : ∀ D : StrDict, (config_dict_to_list D).map (fun e => e.key) = dictKeys D := by
    intro D
    simp only [config_dict_to_list, dictKeys, List.map_map]
    rfl
  refine ⟨?_, ?_, ?_⟩
  · rw [hkeys, config_list_to_dict_eq]
    exact nodup_dictKeys_dictUpdate _ _ (by simp [dictKeys])
  · intro k
    rw [hkeys, mem_dictKeys_iff, config_list_to_dict_get]
    unfold lastValue
    rw [Option.isSome_map']
    rw [List.find?_isSome]
    constructor
    · rintro ⟨e, he, hek⟩
      rw [List.mem_reverse] at he
      exact List.mem_map.mpr ⟨e, he, by simpa using hek⟩
    · intro hmem
      obtain ⟨e, he, hek⟩ := List.mem_map.mp hmem
      exact ⟨e, List.mem_reverse.mpr he, by simp [hek]⟩
  · intro k
    rw [show config_dict_to_list (config_list_to_dict l) =
        (config_list_to_dict l).map (fun p => (⟨p.1, some p.2⟩ : CfgEntry)) from rfl]
    rw [List.find?_map]
    have hpred : ((fun e : CfgEntry => decide (e.key = k)) ∘
        fun p : String × String => (⟨p.1, some p.2⟩ : CfgEntry)) =
        fun p : String × String => decide (p.1 = k) := by
      funext p
      rfl
    rw [hpred, Option.map_map, ← config_list_to_dict_get]
    unfold dictGet?
    rw [Option.map_map]
    rfl

/-- Witness for C9: a list with a duplicate key; the round trip keeps
the last value `3` for key `a`. -/
theorem C9_config_roundtrip_witness :
    (([⟨"a", some "1"⟩, ⟨"b", some "2"⟩, ⟨"a", some "3"⟩] : List CfgEntry).all
        (fun e => e.value.isSome) = true) ∧
    ((config_dict_to_list (config_list_to_dict
        [⟨"a", some "1"⟩, ⟨"b", some "2"⟩, ⟨"a", some "3"⟩])).find?
        (fun e => e.key = "a")).map (fun e => e.value) =
      (lastValue [⟨"a", some "1"⟩, ⟨"b", some "2"⟩, ⟨"a", some "3"⟩] "a").map some :=
  ⟨by decide, (C9_config_roundtrip _ (by decide)).2.2 "a"⟩

/-- C3: every attribute reader funnels through `_get_item`, and each of
clone, checkout, pull, delete, and commit_transport leaves both caches
cleared on success; the next attribute read (any item, covering rid,
status, vsid, url, branch, head) then issues exactly one fetch of the
repository resource and answers from the refreshed snapshot. -/
theorem C3_mutators_clear_cache_single_refetch (st : RepoState) (env : Env)
    (target corrnr message : String) (description : Option String) (item : String) :
    (Repository.rid st env = Repository.get_item st env "rid" ∧
      Repository.status st env = Repository.get_item st env "status" ∧
      Repository.vsid st env = Repository.get_item st env "vsid" ∧
      Repository.url st env = Repository.get_item st env "url" ∧
      Repository.branch st env = Repository.get_item st env "branch" ∧
      Repository.head st env = Repository.get_item st env "currentCommit") ∧
    ((Repository.clone st env).st.data = none ∧
      (Repository.clone st env).st.config = none ∧
      Repository.get_item (Repository.clone st env).st (Repository.clone st env).env item =
        ⟨dictGet? (Repository.clone st env).env.data item,
          (⟨st.name, some (Repository.clone st env).env.data, none⟩ : RepoState),
          (Repository.clone st env).env, [.getJson (build_url st.name none)]⟩) ∧
    ((Repository.checkout st env target).st.data = none ∧
      (Repository.checkout st env target).st.config = none ∧
      Repository.get_item (Repository.checkout st env target).st
          (Repository.checkout st env target).env item =
        ⟨dictGet? (Repository.checkout st env target).env.data item,
          (⟨st.name, some (Repository.checkout st env target).env.data, none⟩ :
            RepoState),
          (Repository.checkout st env target).env, [.getJson (build_url st.name none)]⟩) ∧
    ((Repository.pull st env).st.data = none ∧
      (Repository.pull st env).st.config = none ∧
      Repository.get_item (Repository.pull st env).st (Repository.pull st env).env item =
        ⟨dictGet? (Repository.pull st env).env.data item,
          (⟨st.name, some (Repository.pull st env).env.data, none⟩ : RepoState),
          (Repository.pull st env).env, [.getJson (build_url st.name none)]⟩) ∧
    ((Repository.delete st env).st.data = none ∧
      (Repository.delete st env).st.config = none ∧
      Repository.get_item (Repository.delete st env).st (Repository.delete st env).env item =
        ⟨dictGet? (Repository.delete st env).env.data item,
          (⟨st.name, some (Repository.delete st env).env.data, none⟩ : RepoState),
          (Repository.delete st env).env, [.getJson (build_url st.name none)]⟩) ∧
    ((Repository.commit_transport st env corrnr message description).st.data = none ∧
      (Repository.commit_transport st env corrnr message description).st.config = none ∧
      Repository.get_item (Repository.commit_transport st env corrnr message description).st
          (Repository.commit_transport st env corrnr message description).env item =
        ⟨dictGet?
            (Repository.commit_transport st env corrnr message description).env.data item,
          (⟨st.name,
            some (Repository.commit_transport st env corrnr message description).env.data,
            none⟩ : RepoState),
          (Repository.commit_transport st env corrnr message description).env,
          [.getJson (build_url st.name none)]⟩) := by
  refine ⟨⟨rfl, rfl, rfl, rfl, rfl, rfl⟩, ⟨rfl, rfl, rfl⟩, ?_, ⟨rfl, rfl, rfl⟩,
    ⟨rfl, rfl, rfl⟩, ⟨rfl, rfl, rfl⟩⟩
  rcases st with ⟨n, d, c⟩
  cases d <;> exact ⟨rfl, rfl, rfl⟩

/-- C2 (amended): clone, checkout, pull, delete, and commit_transport
invalidate the cached snapshot; `set_config` applies the same key/value
change it posts to the local config cache; `create` does not invalidate
— it merges the server-returned repository object into the snapshot
(installing it when the snapshot was absent), so it is a second
local-update path beyond `set_config`; `set_url`, however, neither
invalidates nor updates the proxy's cache, so a previously cached `url`
field is left stale after a successful `set_url` — the no-stale-field
guarantee fails for `set_url`. -/
theorem C2_mutation_cache_discipline (st : RepoState) (env : Env)
    (target corrnr message k v newUrl curl cvsid : String)
    (description : Option String) (config : StrDict) (role typ : String) :
    (Repository.clone st env).st.data = none ∧
    (Repository.checkout st env target).st.data = none ∧
    (Repository.pull st env).st.data = none ∧
    (Repository.delete st env).st.data = none ∧
    (Repository.commit_transport st env corrnr message description).st.data = none ∧
    (Repository.set_config st env k v).st.config =
      some (set_configuration_key (st.config.getD []) k v) ∧
    (Repository.set_config st env k v).reqs =
      [.postJson (build_url st.name (some "config")) (.cfgPair k v)] ∧
    (env.createError = none →
      (Repository.create st env curl cvsid config role typ).st.data ≠ none) ∧
    (st.data = none → env.createError = none →
      (Repository.create st env curl cvsid config role typ).st.data =
        some env.createdRepo) ∧
    (∀ r : OpResult (Option String),
      Repository.set_url st env newUrl = some r → r.st = st) := by
  refine ⟨rfl, rfl, rfl, rfl, rfl, rfl, rfl, ?_, ?_, ?_⟩
  · intro he
    unfold Repository.create
    rw [he]
    rcases st with ⟨n, d, c⟩
    cases d with
    | none => simp
    | some dd =>
      by_cases hdd : dd = []
      · subst hdd
        simp
      · simp only [hdd]
        split <;> (try split) <;> simp
  · intro hd he
    rcases st with ⟨n, d, c⟩
    obtain rfl : d = none := hd
    unfold Repository.create
    rw [he]
    rfl
  · intro r hr
    unfold Repository.set_url at hr
    cases hcur : dictGet? env.data "url" with
    | none => rw [hcur] at hr; exact absurd hr (by simp)
    | some cur =>
      rw [hcur] at hr
      dsimp only at hr
      by_cases hequ : cur = DVal.str newUrl
      · rw [if_pos hequ] at hr
        cases Option.some.inj hr
        rfl
      · rw [if_neg hequ] at hr
        cases Option.some.inj hr
        rfl

/-- C2 counterexample: with a cached snapshot whose `url` is
`https://old`, a successful `set_url("https://new")` leaves the cached
`url` at `https://old` while the server resource now reports
`https://new` — a silently stale cached field. -/
theorem C2_set_url_staleness_counterexample :
    (Repository.set_url stStale envEx "https://new").map
        (fun r => (r.st.data, dictGet? r.env.data "url")) =
      some (some [("url", DVal.str "https://old")], some (DVal.str "https://new")) := by
  rfl

/-- Witness for C2: the hypothesis-bearing conjuncts at concrete
inputs. -/
theorem C2_mutation_cache_discipline_witness :
    envEx.createError = none ∧
    (Repository.init "corp" none).data = none ∧
    (Repository.create (Repository.init "corp" none) envEx "https://u" "6IT" []
        "SOURCE" "GITHUB").st.data = some envEx.createdRepo ∧
    Repository.set_url (Repository.init "corp" none) envEx "https://old" = some rW ∧
    rW.st = Repository.init "corp" none :=
  ⟨rfl, rfl,
    (C2_mutation_cache_discipline (Repository.init "corp" none) envEx "b" "c" "m" "k"
        "v" "https://old" "https://u" "6IT" none [] "SOURCE" "GITHUB").2.2.2.2.2.2.2.2.1
      rfl rfl,
    rfl,
    (C2_mutation_cache_discipline (Repository.init "corp" none) envEx "b" "c" "m" "k"
        "v" "https://old" "https://u" "6IT" none [] "SOURCE" "GITHUB").2.2.2.2.2.2.2.2.2
      rW rfl⟩

/-- C4 counterexample: a successful `create` does not clear the cached
snapshot — it installs the server-returned repository object, so the
snapshot is populated, not `none`. -/
theorem C4_create_cleared_counterexample :
    (Repository.create (Repository.init "corp" none) envEx "https://u" "6IT" []
        "SOURCE" "GITHUB").result = none ∧
    (Repository.create (Repository.init "corp" none) envEx "https://u" "6IT" []
        "SOURCE" "GITHUB").st.data = some envEx.createdRepo ∧
    some envEx.createdRepo ≠ (none : Option Data) :=
  ⟨rfl, rfl, by decide⟩

/-- C4 (amended): after a successful `create` the cached snapshot is not
invalidated but populated (the server-returned repository object is
merged in or installed), so the next attribute read issues no fetch and
answers from the locally retained data. -/
theorem C4_create_populates_cache (st : RepoState) (env : Env)
    (curl cvsid : String) (config : StrDict) (role typ : String) (item : String)
    (he : env.createError = none) :
    (Repository.create st env curl cvsid config role typ).st.data ≠ none ∧
    (Repository.get_item (Repository.create st env curl cvsid config role typ).st
        (Repository.create st env curl cvsid config role typ).env item).reqs = [] := by
  have hsome : ((Repository.create st env curl cvsid config role typ).st.data).isSome = true := by
    unfold Repository.create
    rw [he]
    rcases st with ⟨n, d, c⟩
    cases d with
    | none => simp
    | some d0 =>
      by_cases h0 : d0 = []
      · subst h0
        simp
      · simp only [h0]
        split <;> (try split) <;> simp
  obtain ⟨dd, hdd⟩ := Option.isSome_iff_exists.mp hsome
  constructor
  · rw [hdd]
    simp
  · unfold Repository.get_item
    rw [hdd]

/-- Witness for C4: the amended theorem at a concrete fresh proxy. -/
theorem C4_create_populates_cache_witness :
    envEx.createError = none ∧
    (Repository.create (Repository.init "corp" none) envEx "https://u" "6IT" []
        "SOURCE" "GITHUB").st.data ≠ none ∧
    (Repository.get_item
        (Repository.create (Repository.init "corp" none) envEx "https://u" "6IT" []
          "SOURCE" "GITHUB").st
        (Repository.create (Repository.init "corp" none) envEx "https://u" "6IT" []
          "SOURCE" "GITHUB").env "rid").reqs = [] :=
  ⟨rfl,
    (C4_create_populates_cache (Repository.init "corp" none) envEx "https://u" "6IT" []
        "SOURCE" "GITHUB" "rid" rfl).1,
    (C4_create_populates_cache (Repository.init "corp" none) envEx "https://u" "6IT" []
        "SOURCE" "GITHUB" "rid" rfl).2⟩

theorem lastValue_set_configuration_key (l : List CfgEntry) (k v : String)
    (h : l.countP (fun e => e.key = k) ≤ 1) :
    lastValue (set_configuration_key l k v) k = some v := by
  induction l with
  | nil =>
    show lastValue [⟨k, some v⟩] k = some v
    unfold lastValue
    rw [show ([⟨k, some v⟩] : List CfgEntry).reverse = [⟨k, some v⟩] from rfl]
    rw [List.find?_cons_of_pos _ (by simp)]
    rfl
  | cons c cs ih =>
    by_cases hc : c.key = k
    · unfold lastValue
      have hstep : set_configuration_key (c :: cs) k v = ⟨k, some v⟩ :: cs := by
        rw [set_configuration_key, if_pos hc]
      rw [hstep, List.reverse_cons, List.find?_append]
      have hnone : cs.reverse.find? (fun e => decide (e.key = k)) = none := by
        rw [List.find?_eq_none]
        intro e he hedec
        rw [List.countP_cons] at h
        simp [hc] at h
        have he' := List.mem_reverse.mp he
        simp only [decide_eq_true_eq] at hedec
        exact absurd hedec (h e he')
      rw [hnone, Option.none_or, List.find?_cons_of_pos _ (by simp)]
      rfl
    · have hcount : cs.countP (fun e => e.key = k) ≤ 1 := by
        rw [List.countP_cons] at h
        simp [hc] at h
        exact h
      have hstep : set_configuration_key (c :: cs) k v = c :: set_configuration_key cs k v := by
        rw [set_configuration_key, if_neg hc]
      have hlast := ih hcount
      unfold lastValue at hlast ⊢
      rw [hstep, List.reverse_cons, List.find?_append]
      obtain ⟨e0, hfind, hfe⟩ := Option.map_eq_some'.mp hlast
      rw [hfind, Option.or_some]
      simp [hfe]

/-- C6 (amended): after `set_config(k, v)`, `get_config(k)` answers from
the local configuration cache with no network request at all (neither
the `config/{k}` GET nor the snapshot fetch) and leaves the proxy state
unchanged; the value returned is that of the last entry for `k` in the
updated cache list, which is `v` whenever the cached config list held at
most one entry for `k` — in particular always when its keys are
unique. -/
theorem C6_set_config_get_config (st : RepoState) (env : Env) (k v : String)
    (h : (st.config.getD []).countP (fun e => e.key = k) ≤ 1) :
    (Repository.get_config (Repository.set_config st env k v).st
        (Repository.set_config st env k v).env k).result = some v ∧
    (Repository.get_config (Repository.set_config st env k v).st
        (Repository.set_config st env k v).env k).reqs = [] ∧
    (Repository.get_config (Repository.set_config st env k v).st
        (Repository.set_config st env k v).env k).st =
      (Repository.set_config st env k v).st := by
  have hval : dictGet?
      (config_list_to_dict (set_configuration_key (st.config.getD []) k v)) k = some v := by
    rw [config_list_to_dict_get]
    exact lastValue_set_configuration_key _ k v h
  unfold Repository.get_config Repository.configuration Repository.set_config
    Repository.update_configuration
  dsimp only
  rw [hval]
  exact ⟨rfl, rfl, rfl⟩

/-- C6 counterexample: with a cached config list holding two entries for
key `K`, `set_config("K", "v")` overwrites the first entry, but the dict
view is last-write-wins, so `get_config("K")` returns the untouched
second value `b`, not `v` — though still with no network read. -/
theorem C6_duplicate_key_counterexample :
    (Repository.get_config (Repository.set_config stDup envEx "K" "v").st
        (Repository.set_config stDup envEx "K" "v").env "K").result = some "b" ∧
    (Repository.get_config (Repository.set_config stDup envEx "K" "v").st
        (Repository.set_config stDup envEx "K" "v").env "K").reqs = [] ∧
    some "b" ≠ some ("v" : String) :=
  ⟨rfl, rfl, by decide⟩

/-- Witness for C6: a fresh proxy (empty config cache, so at most one
entry per key) returns the freshly set value from cache. -/
theorem C6_set_config_get_config_witness :
    ((Repository.init "corp" none).config.getD []).countP (fun e => e.key = "K") ≤ 1 ∧
    (Repository.get_config
        (Repository.set_config (Repository.init "corp" none) envEx "K" "v").st
        (Repository.set_config (Repository.init "corp" none) envEx "K" "v").env
        "K").result = some "v" ∧
    (Repository.get_config
        (Repository.set_config (Repository.init "corp" none) envEx "K" "v").st
        (Repository.set_config (Repository.init "corp" none) envEx "K" "v").env
        "K").reqs = [] :=
  ⟨by decide,
    (C6_set_config_get_config (Repository.init "corp" none) envEx "K" "v" (by decide)).1,
    (C6_set_config_get_config (Repository.init "corp" none) envEx "K" "v" (by decide)).2.1⟩

/-- C7: `set_url` is idempotent.  Every call starts with a fetch of the
current data; when the fetched `url` already equals the argument the
call is a no-op returning nothing and issuing no POST.  After any
successful call the stored `url` equals the argument, so the second of
two successive calls with the same URL short-circuits on equality,
issuing exactly one fetch and no POST — at most one POST in total. -/
theorem C7_set_url_idempotent (st : RepoState) (env : Env) (u : String)
    (r1 : OpResult (Option String))
    (h1 : Repository.set_url st env u = some r1) :
    Repository.set_url r1.st r1.env u =
      some ⟨none, r1.st, r1.env, [.getJson (build_url r1.st.name none)]⟩ ∧
    countPosts (r1.reqs ++ [Request.getJson (build_url r1.st.name none)]) ≤ 1 ∧
    r1.reqs.head? = some (.getJson (build_url st.name none)) ∧
    (dictGet? env.data "url" = some (.str u) →
      r1.result = none ∧ countPosts r1.reqs = 0) := by
  unfold Repository.set_url at h1
  cases hcur : dictGet? env.data "url" with
  | none =>
    rw [hcur] at h1
    exact absurd h1 (by simp)
  | some cur =>
    rw [hcur] at h1
    dsimp only at h1
    by_cases hequ : cur = DVal.str u
    · rw [if_pos hequ] at h1
      cases Option.some.inj h1
      refine ⟨?_, ?_, rfl, fun _ => ⟨rfl, ?_⟩⟩
      · unfold Repository.set_url
        rw [hcur]
        dsimp only
        rw [if_pos hequ]
      · simp [countPosts, List.countP_cons]
      · simp [countPosts, List.countP_cons]
    · rw [if_neg hequ] at h1
      cases Option.some.inj h1
      refine ⟨?_, ?_, rfl, ?_⟩
      · unfold Repository.set_url
        dsimp only
        rw [dictGet?_dictSet, if_pos rfl]
        dsimp only
        rw [if_pos rfl]
      · simp [countPosts, List.countP_cons]
      · intro hu
        exact absurd (Option.some.inj hu) hequ

/-- Witness for C7: two successive `set_url` calls with a URL already
equal to the stored one — zero POSTs in total. -/
theorem C7_set_url_idempotent_witness :
    Repository.set_url (Repository.init "corp" none) envEx "https://old" = some rW ∧
    Repository.set_url rW.st rW.env "https://old" =
      some ⟨none, rW.st, rW.env, [.getJson (build_url rW.st.name none)]⟩ ∧
    countPosts (rW.reqs ++ [Request.getJson (build_url rW.st.name none)]) ≤ 1 ∧
    rW.result = none ∧ countPosts rW.reqs = 0 :=
  ⟨rfl,
    (C7_set_url_idempotent (Repository.init "corp" none) envEx "https://old" rW rfl).1,
    (C7_set_url_idempotent (Repository.init "corp" none) envEx "https://old" rW rfl).2.1,
    ((C7_set_url_idempotent (Repository.init "corp" none) envEx "https://old" rW
        rfl).2.2.2 rfl).1,
    ((C7_set_url_idempotent (Repository.init "corp" none) envEx "https://old" rW
        rfl).2.2.2 rfl).2⟩

/-- C8: `checkout(t)` reads the current branch `b` (from the cache, or
fetching once on demand), issues a GET to
`branches/{b}/switch` — the pre-switch branch in the path, not the
target — with the target passed as the `branch` query parameter, then
invalidates both caches and returns the `result` field of the response
JSON. -/
theorem C8_checkout_uses_current_branch (st : RepoState) (env : Env) (t b : String)
    (hb : (Repository.get_item st env "branch").result = some (.str b)) :
    (Repository.checkout st env t).reqs =
      (Repository.get_item st env "branch").reqs ++
        [.get (build_url st.name (some s!"branches/{b}/switch")) [("branch", t)]] ∧
    (Repository.get_item st env "branch").reqs.length ≤ 1 ∧
    (Repository.checkout st env t).st.data = none ∧
    (Repository.checkout st env t).st.config = none ∧
    (Repository.checkout st env t).result = env.checkoutResult := by
  refine ⟨?_, ?_, rfl, rfl, rfl⟩
  · unfold Repository.checkout
    dsimp only
    rw [hb]
    rfl
  · rcases st with ⟨n, d, c⟩
    cases d <;> simp [Repository.get_item]

/-- Witness for C8: the specified scenario — `checkout("main")` on a
repository currently on branch `develop` issues
`GET repository/corp/branches/develop/switch?branch=main` (one fetch
first, since the snapshot was not cached). -/
theorem C8_checkout_witness :
    (Repository.get_item (Repository.init "corp" none) envEx "branch").result =
      some (.str "develop") ∧
    (Repository.checkout (Repository.init "corp" none) envEx "main").reqs =
      (Repository.get_item (Repository.init "corp" none) envEx "branch").reqs ++
        [.get (build_url "corp" (some "branches/develop/switch")) [("branch", "main")]] ∧
    (Repository.checkout (Repository.init "corp" none) envEx "main").st.data = none :=
  ⟨rfl,
    (C8_checkout_uses_current_branch (Repository.init "corp" none) envEx "main" "develop"
        rfl).1,
    (C8_checkout_uses_current_branch (Repository.init "corp" none) envEx "main" "develop"
        rfl).2.2.1⟩

/-- C5: when `create` raises AlreadyExists inside `simple_clone`, with
`error_exists = true` the error propagates unchanged; with
`error_exists = false` it is swallowed — the caches are wiped, so the
`is_cloned` check issues a fresh fetch right after the create POST, and
`clone()` is invoked iff the freshly fetched status is `CREATED` (the
repository is not yet cloned). -/
theorem C5_simple_clone_already_exists (env : Env)
    (url name vsid start_dir : String) (vcs_token : Option String)
    (role typ : String) (e : HTTPRequestError) (m : Messages)
    (he : env.createError = some e)
    (hm : exception_from_http_error e = .alreadyExists m) :
    (simple_clone env url name vsid start_dir vcs_token true role typ).1 =
      .error (.alreadyExists m) ∧
    (∃ p, (simple_clone env url name vsid start_dir vcs_token false role typ).1 = .ok p) ∧
    (simple_clone env url name vsid start_dir vcs_token false role typ).2 =
      (Repository.create (Repository.init name none) env url vsid
          (simple_clone_config start_dir vcs_token) role typ).reqs ++
        [.getJson (build_url name none)] ++
        (if dictGet? env.data "status" = some (.str "CREATED") then
          [.post (build_url name (some "clone"))]
        else []) := by
  have hres : (Repository.create (Repository.init name none) env url vsid
      (simple_clone_config start_dir vcs_token) role typ).result =
      some (.alreadyExists m) := by
    unfold Repository.create
    rw [he]
    dsimp only
    rw [hm]
  have hst : (Repository.create (Repository.init name none) env url vsid
      (simple_clone_config start_dir vcs_token) role typ).st =
      (⟨name, none, none⟩ : RepoState) := by
    unfold Repository.create
    rw [he]
    rfl
  have henv : (Repository.create (Repository.init name none) env url vsid
      (simple_clone_config start_dir vcs_token) role typ).env = env := by
    unfold Repository.create
    rw [he]
  refine ⟨?_, ?_, ?_⟩
  · simp [simple_clone, hres]
  · by_cases hstat : dictGet? env.data "status" = some (DVal.str "CREATED") <;>
      · simp [simple_clone, hres, hst, henv, simple_clone_finish, Repository.is_cloned,
          Repository.status, Repository.get_item, Repository.clone,
          Repository.wipe_data, hstat]
  · by_cases hstat : dictGet? env.data "status" = some (DVal.str "CREATED") <;>
      · simp [simple_clone, hres, hst, henv, simple_clone_finish, Repository.is_cloned,
          Repository.status, Repository.get_item, Repository.clone,
          Repository.wipe_data, hstat]

/-- Witness for C5: a concrete environment whose create POST reports an
existing repository and whose status is `CREATED`, so the tolerant run
succeeds and proceeds to clone. -/
theorem C5_simple_clone_already_exists_witness :
    envExErr.createError = some alreadyExistsErr ∧
    exception_from_http_error alreadyExistsErr = .alreadyExists mW ∧
    (simple_clone envExErr "https://u" "corp" "6IT" "src/" none true "SOURCE"
        "GITHUB").1 = .error (.alreadyExists mW) ∧
    (∃ p, (simple_clone envExErr "https://u" "corp" "6IT" "src/" none false "SOURCE"
        "GITHUB").1 = .ok p) ∧
    (simple_clone envExErr "https://u" "corp" "6IT" "src/" none false "SOURCE"
        "GITHUB").2 =
      (Repository.create (Repository.init "corp" none) envExErr "https://u" "6IT"
          (simple_clone_config "src/" none) "SOURCE" "GITHUB").reqs ++
        [.getJson (build_url "corp" none)] ++
        (if dictGet? envExErr.data "status" = some (.str "CREATED") then
          [.post (build_url "corp" (some "clone"))]
        else []) :=
  ⟨rfl, by decide,
    (C5_simple_clone_already_exists envExErr "https://u" "corp" "6IT" "src/" none
        "SOURCE" "GITHUB" alreadyExistsErr mW rfl (by decide)).1,
    (C5_simple_clone_already_exists envExErr "https://u" "corp" "6IT" "src/" none
        "SOURCE" "GITHUB" alreadyExistsErr mW rfl (by decide)).2.1,
    (C5_simple_clone_already_exists envExErr "https://u" "corp" "6IT" "src/" none
        "SOURCE" "GITHUB" alreadyExistsErr mW rfl (by decide)).2.2⟩

theorem create_payload_fields (st : RepoState) (curl cvsid : String) (config : StrDict)
    (role typ : String) :
    dictGet? (Repository.create_payload st curl cvsid config role typ) "rid" =
      some (.str st.name) ∧
    dictGet? (Repository.create_payload st curl cvsid config role typ) "name" =
      some (.str st.name) ∧
    dictGet? (Repository.create_payload st curl cvsid config role typ) "vsid" =
      some (.str cvsid) ∧
    dictGet? (Repository.create_payload st curl cvsid config role typ) "url" =
      some (.str curl) ∧
    dictGet? (Repository.create_payload st curl cvsid config role typ) "role" =
      some (.str role) ∧
    dictGet? (Repository.create_payload st curl cvsid config role typ) "type" =
      some (.str typ) ∧
    dictGet? (Repository.create_payload st curl cvsid config role typ) "connection" =
      some (.str "ssl") := by
  have hgen : ∀ (κ : String) (w : DVal), κ ≠ "config" →
      dictGet? (dictUpdate (st.data.getD [])
        [("rid", DVal.str st.name), ("name", DVal.str st.name),
          ("vsid", DVal.str cvsid), ("url", DVal.str curl), ("role", DVal.str role),
          ("type", DVal.str typ), ("connection", DVal.str "ssl")]) κ = some w →
      dictGet? (Repository.create_payload st curl cvsid config role typ) κ = some w := by
    intro κ w hκ hbase
    unfold Repository.create_payload
    dsimp only
    split
    · rw [dictGet?_dictSet, if_neg hκ]
      exact hbase
    · exact hbase
  refine ⟨hgen _ _ (by decide) ?_, hgen _ _ (by decide) ?_, hgen _ _ (by decide) ?_,
    hgen _ _ (by decide) ?_, hgen _ _ (by decide) ?_, hgen _ _ (by decide) ?_,
    hgen _ _ (by decide) ?_⟩ <;>
    · rw [dictGet?_dictUpdate]
      rfl

/-- C10 counterexample: the claim fails for a proxy whose cached
snapshot is the empty dict — `self._data or ` treats it as falsy, so
`create` builds the payload in a fresh dict; after the failing POST the
cache still holds its pre-call (empty) contents, not the attempted
values. -/
theorem C10_empty_snapshot_counterexample :
    (Repository.create (⟨"corp", some [], none⟩ : RepoState) envExErr "https://u" "6IT"
        [] "SOURCE" "GITHUB").result.isSome = true ∧
    (Repository.create (⟨"corp", some [], none⟩ : RepoState) envExErr "https://u" "6IT"
        [] "SOURCE" "GITHUB").st.data = some [] ∧
    dictGet? ([] : Data) "url" = none :=
  ⟨rfl, rfl, rfl⟩

/-- C10 (amended): when the proxy holds a non-empty cached snapshot,
`create` updates it in place to the full creation payload — rid and name
set to the repository name, vsid, url, role, type, connection `ssl`, and
the merged config list when a config mapping is supplied — before the
POST is issued, so a raising POST leaves exactly these attempted values
in the cache; an absent or empty snapshot (both falsy in Python) instead
keeps its pre-call contents. -/
theorem C10_create_premutates_nonempty_snapshot (st : RepoState) (env : Env)
    (curl cvsid : String) (config : StrDict) (role typ : String)
    (d : Data) (e : HTTPRequestError)
    (hd : st.data = some d) (hne : d ≠ []) (he : env.createError = some e) :
    (Repository.create st env curl cvsid config role typ).result =
      some (exception_from_http_error e) ∧
    (Repository.create st env curl cvsid config role typ).st.data =
      some (Repository.create_payload st curl cvsid config role typ) ∧
    dictGet? (Repository.create_payload st curl cvsid config role typ) "rid" =
      some (.str st.name) ∧
    dictGet? (Repository.create_payload st curl cvsid config role typ) "name" =
      some (.str st.name) ∧
    dictGet? (Repository.create_payload st curl cvsid config role typ) "vsid" =
      some (.str cvsid) ∧
    dictGet? (Repository.create_payload st curl cvsid config role typ) "url" =
      some (.str curl) ∧
    dictGet? (Repository.create_payload st curl cvsid config role typ) "role" =
      some (.str role) ∧
    dictGet? (Repository.create_payload st curl cvsid config role typ) "type" =
      some (.str typ) ∧
    dictGet? (Repository.create_payload st curl cvsid config role typ) "connection" =
      some (.str "ssl") := by
  have hfields := create_payload_fields st curl cvsid config role typ
  have hcreate : ∀ P : OpResult (Option GctsError) → Prop,
      P (Repository.create st env curl cvsid config role typ) ↔
      P ⟨some (exception_from_http_error e),
          { st with data := some (Repository.create_payload st curl cvsid config role typ) },
          env,
          [.postJson "repository"
            (.createReq st.name (Repository.create_payload st curl cvsid config role typ))]⟩ := by
    intro P
    rcases st with ⟨n, dd, c⟩
    obtain rfl : dd = some d := hd
    unfold Repository.create
    rw [he]
    dsimp only
    rw [if_pos (by simp [hne])]
  refine ⟨?_, ?_, hfields.1, hfields.2.1, hfields.2.2.1, hfields.2.2.2.1,
    hfields.2.2.2.2.1, hfields.2.2.2.2.2.1, hfields.2.2.2.2.2.2⟩
  · exact (hcreate (fun r => r.result = some (exception_from_http_error e))).mpr rfl
  · exact (hcreate (fun r => r.st.data =
      some (Repository.create_payload st curl cvsid config role typ))).mpr rfl

/-- Witness for C10: a proxy with a non-empty cached snapshot and a
failing create POST; the cache holds the payload with the attempted
url. -/
theorem C10_create_premutates_witness :
    stStale.data = some [("url", DVal.str "https://old")] ∧
    ([("url", DVal.str "https://old")] : Data) ≠ [] ∧
    envExErr.createError = some alreadyExistsErr ∧
    (Repository.create stStale envExErr "https://u" "6IT" [] "SOURCE" "GITHUB").st.data =
      some (Repository.create_payload stStale "https://u" "6IT" [] "SOURCE" "GITHUB") ∧
    dictGet? (Repository.create_payload stStale "https://u" "6IT" [] "SOURCE" "GITHUB")
        "url" = some (.str "https://u") :=
  ⟨rfl, by decide, rfl,
    (C10_create_premutates_nonempty_snapshot stStale envExErr "https://u" "6IT" []
        "SOURCE" "GITHUB" [("url", DVal.str "https://old")] alreadyExistsErr rfl
        (by decide) rfl).2.1,
    (C10_create_premutates_nonempty_snapshot stStale envExErr "https://u" "6IT" []
        "SOURCE" "GITHUB" [("url", DVal.str "https://old")] alreadyExistsErr rfl
        (by decide) rfl).2.2.2.2.2.1⟩

end Gcts
